import Mathlib

/-!
Shallow embedding of `oemof/core/energy_system.py` (classes `EnergySystem`,
`Region`, `Simulation`) together with the external collaborators the claims
need (the solph `OptimizationModel`, the `Entity` registry, `os`/`pickle`),
and proofs settling the frozen claims about that module.

Python conventions used throughout the embedding:
* keyword arguments are `Option` fields (absent = `none`, which is also what
  `kwargs.get` returns for an absent key);
* raised exceptions are `Except PyErr` results;
* Python tuples of uid components are `List String`;
* numeric parameters that are merely stored (never computed with) are `Rat`.
-/

namespace Oemof

/-- A filesystem path, one component per `os.path.join` argument. -/
abbrev Path := List String

/-- An opaque keyword-argument bag (`objective_options`, `solve_kwargs`). -/
abbrev KwargsBag := List (String × String)

/-- An opaque results mapping as returned by `om.results()`. -/
abbrev Results := List (String × Int)

/-- The Python exceptions raised by the embedded code. -/
inductive PyErr where
  | typeError (msg : String)
  | valueError (msg : String)
  | attributeError (msg : String)
  | permissionError
  | fileNotFoundError
deriving DecidableEq, Repr

/-- A registered entity, identified by its uid tuple (the container code treats
entities as opaque elements of its `entities` list). -/
structure Entity where
  uid : Path
deriving DecidableEq, Repr

/-- A bus entity as consumed by `EnergySystem.connect`: only its uid tuple is
read there. -/
structure Bus where
  uid : Path
deriving DecidableEq, Repr

/-- Attribute state set by `Region.__init__`: `entities`, `name`, `geom`, `_code`. -/
structure Region where
  entities : List Entity
  name : String
  geom : Option String
  _code : Option String
deriving DecidableEq, Repr

/-- Attribute state of a `Simulation` after a successful `__init__` (construction
raises before the object escapes when `timesteps` is `None`, so the stored
`timesteps` is the supplied sequence). -/
structure Simulation where
  solver : String
  debug : Bool
  verbose : Bool
  objective_options : KwargsBag
  duals : Bool
  timesteps : List Int
  relaxed : Bool
  fast_build : Bool
  solve_kwargs : KwargsBag
deriving DecidableEq, Repr

/-- The keyword arguments accepted by `Simulation.__init__`; `none` means the
key is absent (or explicitly `None`, which `kwargs.get` cannot distinguish). -/
structure SimKwargs where
  solver : Option String
  debug : Option Bool
  verbose : Option Bool
  objective_options : Option KwargsBag
  duals : Option Bool
  timesteps : Option (List Int)
  relaxed : Option Bool
  fast_build : Option Bool
  solve_kwargs : Option KwargsBag
deriving DecidableEq, Repr

/-- Embedding of `Simulation.__init__`: defaults every field, then raises
`ValueError('No timesteps defined!')` when `self.timesteps is None`. -/
def Simulation.init (k : SimKwargs) : Except PyErr Simulation :=
  match k.timesteps with
  | none => .error (.valueError "No timesteps defined!")
  | some ts =>
      .ok { solver := k.solver.getD "glpk"
            debug := k.debug.getD false
            verbose := k.verbose.getD false
            objective_options := k.objective_options.getD []
            duals := k.duals.getD false
            timesteps := ts
            relaxed := k.relaxed.getD false
            fast_build := k.fast_build.getD false
            solve_kwargs := k.solve_kwargs.getD [] }

/-- The `simulation` attribute of an `EnergySystem`: `kwargs.get('simulation',
[])` leaves a literal empty list when the keyword is absent, otherwise the
supplied `Simulation` object. -/
inductive SimSlot where
  | emptyList
  | config (s : Simulation)
deriving DecidableEq, Repr

/-- Attribute state of an `EnergySystem`: exactly the attributes `__init__` sets
(`regions`, `entities`, `simulation`, `results`, `time_idx`), which is also
the `__dict__` that `dump`/`restore` serialize. -/
structure EnergySystem where
  regions : List Region
  entities : List Entity
  simulation : SimSlot
  results : Option Results
  time_idx : Option (List Int)
deriving DecidableEq, Repr

/-- The keyword arguments accepted by `EnergySystem.__init__`. -/
structure ESKwargs where
  regions : Option (List Region)
  entities : Option (List Entity)
  simulation : Option Simulation
  results : Option Results
  time_idx : Option (List Int)
deriving DecidableEq, Repr

/-- The attribute state built by `EnergySystem.__init__`: `regions`,
`entities` and `simulation` default to `[]`, `results` and `time_idx` to
`None`. -/
def mkEnergySystem (k : ESKwargs) : EnergySystem :=
  { regions := k.regions.getD []
    entities := k.entities.getD []
    simulation := match k.simulation with
      | some s => SimSlot.config s
      | none => SimSlot.emptyList
    results := k.results
    time_idx := k.time_idx }

/-- Embedding of `EnergySystem.__init__` with the process-wide `Entity.registry` class
attribute threaded explicitly: it builds the attribute state and overwrites
the registry with the new container (`Entity.registry = self`),
unconditionally discarding the previous registry value. -/
def EnergySystem.init (k : ESKwargs) (_registry : Option EnergySystem) :
    EnergySystem × Option EnergySystem :=
  ((mkEnergySystem k, some (mkEnergySystem k)) : EnergySystem × Option EnergySystem)

/-- A sequence of `EnergySystem` constructions acting on the `Entity.registry`
state, returning the final registry. -/
def runInits (ks : List ESKwargs) (reg0 : Option EnergySystem) :
    Option EnergySystem :=
  ks.foldl (fun reg k => (EnergySystem.init k reg).2) reg0

/-- The `transport_class` argument of `connect`: the supported
`transports.Simple` class or any other class object. -/
inductive TransportClass where
  | Simple
  | Other (name : String)
deriving DecidableEq, Repr

/-- A `Transport` entity as constructed inside `EnergySystem.connect`. -/
structure Transport where
  uid : Path
  outputs : List Bus
  inputs : List Bus
  out_max : List Rat
  in_max : List Rat
  eta : List Rat
deriving DecidableEq, Repr

/-- Embedding of `EnergySystem.connect`: returns the list of `Transport` entities it
constructs paired with the exception it raises (if any). The `TypeError`
check precedes the construction loop, so a failing call constructs nothing. -/
def EnergySystem.connect (bus1 bus2 : Bus) (in_max out_max eta : Rat)
    (transport_class : TransportClass) : List Transport × Option PyErr :=
  if ¬ (transport_class = TransportClass.Simple) then
    ([], some (PyErr.typeError
      ("Sorry, `EnergySystem.connect` currently only works with" ++
       "a `transport_class` argument of Simple")))
  else
    ([(bus1, bus2), (bus2, bus1)].map (fun p =>
      { uid := "transport" :: (p.1.uid ++ p.2.uid)
        outputs := [p.1]
        inputs := [p.2]
        out_max := [out_max]
        in_max := [in_max]
        eta := [eta] }), none)

/-- The arguments `EnergySystem.optimize` passes to `om.solve` (keyword for
keyword: `solver`, `debug`, `verbose`, `duals`, `solve_kwargs`). -/
structure SolveArgs where
  solver : String
  debug : Bool
  verbose : Bool
  duals : Bool
  solve_kwargs : KwargsBag
deriving DecidableEq, Repr

/-- Modelled from the spec: the solph `OptimizationModel` compiler
(`oemof.solph.optimization_model`, not under `src/`) is abstracted by its
observable behavior at the container interface — a `solve` routine that may
raise a configuration or solver error, and a `results()` extraction routine,
both depending on the energy system the instance was built from. -/
structure OMBehavior where
  solveFn : EnergySystem → SolveArgs → Except PyErr Unit
  resultsFn : EnergySystem → Results

/-- Modelled from the spec: a compiler instance, i.e. an `OMBehavior` bound to
the energy system passed to `OptimizationModel(energysystem=...)`. -/
structure OM where
  behavior : OMBehavior
  energysystem : EnergySystem

instance instDecEqExcept {ε α : Type _} [DecidableEq ε] [DecidableEq α] :
    DecidableEq (Except ε α) := fun x y =>
  match x, y with
  | .error a, .error b =>
      if h : a = b then .isTrue (by subst h; rfl) else .isFalse (by simp [h])
  | .ok a, .ok b =>
      if h : a = b then .isTrue (by subst h; rfl) else .isFalse (by simp [h])
  | .error _, .ok _ => .isFalse (by simp)
  | .ok _, .error _ => .isFalse (by simp)

/-- The observable outcome of one `EnergySystem.optimize` call: the
container's attribute state after the call, the returned value or the
propagated exception, and the sequence of `om.solve` invocations made. -/
structure OptimizeOutcome where
  state : EnergySystem
  ret : Except PyErr EnergySystem
  solveCalls : List SolveArgs
deriving DecidableEq

/-- Embedding of `EnergySystem.optimize`: builds a fresh `OM` bound to `self` when `om` is
`None`, reads `self.simulation.solver` etc. (an `AttributeError` when the
`simulation` attribute is still the default empty list), invokes `om.solve`
once with exactly the simulation config fields, then stores `om.results()`
into `self.results` and returns `self`. An exception leaves `self`
untouched. -/
def EnergySystem.optimize (b : OMBehavior) (om? : Option OM)
    (es : EnergySystem) : OptimizeOutcome :=
  let om := om?.getD { behavior := b, energysystem := es }
  match es.simulation with
  | SimSlot.emptyList =>
      { state := es
        ret := .error (.attributeError
          "list object has no attribute solver")
        solveCalls := [] }
  | SimSlot.config s =>
      let args : SolveArgs :=
        { solver := s.solver, debug := s.debug, verbose := s.verbose
          duals := s.duals, solve_kwargs := s.solve_kwargs }
      match om.behavior.solveFn om.energysystem args with
      | .error e => { state := es, ret := .error e, solveCalls := [args] }
      | .ok _ =>
          let es2 : EnergySystem :=
            { es with results := some (om.behavior.resultsFn om.energysystem) }
          { state := es2, ret := .ok es2, solveCalls := [args] }

/-- Modelled from the spec: the filesystem state seen through the `os` and
`pickle` calls of `dump`/`restore`. `home` is `os.path.expanduser('~')`,
`dirs` the existing directories, `denied` the paths whose creation or
write raises `PermissionError`, and `files` the pickled blobs on disk
(newest binding first); `pickle` round-trips the attribute state
faithfully. -/
structure FS where
  home : Path
  dirs : List Path
  denied : List Path
  files : List (Path × EnergySystem)
deriving DecidableEq, Repr

/-- Embedding of `os.mkdir`: raises `PermissionError` on a denied path,
`FileNotFoundError` when the parent directory is missing. -/
def FS.mkdir (fs : FS) (p : Path) : Except PyErr FS :=
  if p ∈ fs.denied then .error PyErr.permissionError
  else if p.dropLast ∈ fs.dirs then .ok { fs with dirs := p :: fs.dirs }
  else .error PyErr.fileNotFoundError

/-- Embedding of `if not os.path.isdir(p): os.mkdir(p)` as used by `dump`. -/
def FS.ensureDir (fs : FS) (p : Path) : Except PyErr FS :=
  if p ∈ fs.dirs then .ok fs else fs.mkdir p

/-- Embedding of `pickle.dump(blob, open(p, 'wb'))`: raises `PermissionError` on a denied
path, `FileNotFoundError` when the directory is missing. -/
def FS.writeFile (fs : FS) (p : Path) (blob : EnergySystem) :
    Except PyErr FS :=
  if p ∈ fs.denied then .error PyErr.permissionError
  else if p.dropLast ∈ fs.dirs then
    .ok { fs with files := (p, blob) :: fs.files }
  else .error PyErr.fileNotFoundError

/-- Embedding of `pickle.load(open(p, 'rb'))`. -/
def FS.readFile (fs : FS) (p : Path) : Except PyErr EnergySystem :=
  match fs.files.lookup p with
  | some blob => .ok blob
  | none => .error PyErr.fileNotFoundError

/-- Embedding of `EnergySystem.dump`: defaults `dpath` to `~/.oemof/dumps` (creating
`~/.oemof` and `~/.oemof/dumps` when absent) and `filename` to
`es_dump.oemof`, then pickles `self.__dict__` to the joined path. Returns
the new filesystem and the path written (the path the method logs). -/
def EnergySystem.dump (es : EnergySystem) (fs : FS) (dpath : Option Path)
    (filename : Option String) : Except PyErr (FS × Path) :=
  let dirStep : Except PyErr (FS × Path) :=
    match dpath with
    | some d => .ok (fs, d)
    | none =>
        let bpath := fs.home ++ [".oemof"]
        match fs.ensureDir bpath with
        | .error e => .error e
        | .ok fs1 =>
            let dp := bpath ++ ["dumps"]
            match fs1.ensureDir dp with
            | .error e => .error e
            | .ok fs2 => .ok (fs2, dp)
  match dirStep with
  | .error e => .error e
  | .ok (fs2, dp) =>
      let full := dp ++ [filename.getD "es_dump.oemof"]
      match fs2.writeFile full es with
      | .error e => .error e
      | .ok fs3 => .ok (fs3, full)

/-- Embedding of `EnergySystem.restore`: defaults `dpath` to `~/.oemof/dumps` and
`filename` to `es_dump.oemof`, unpickles the blob at the joined path and
replaces `self.__dict__` with it wholesale (the prior state `self` is
discarded, not merged). Returns the restored state and the path read. -/
def EnergySystem.restore (_self : EnergySystem) (fs : FS)
    (dpath : Option Path) (filename : Option String) :
    Except PyErr (EnergySystem × Path) :=
  let dp := dpath.getD (fs.home ++ [".oemof", "dumps"])
  let full := dp ++ [filename.getD "es_dump.oemof"]
  match fs.readFile full with
  | .error e => .error e
  | .ok blob => .ok (blob, full)

/-- Embedding of `name.replace('_', ' ')` on the character list. -/
def underscoreToSpace (l : List Char) : List Char :=
  l.map (fun c => if c = '_' then ' ' else c)

/-- Split a character list at the first occurrence of `sep`, when any. -/
def splitFirst (sep : Char) : List Char → Option (List Char × List Char)
  | [] => none
  | c :: cs =>
      if c = sep then some ([], cs)
      else match splitFirst sep cs with
        | none => none
        | some (a, b) => some (c :: a, b)

/-- Python `s.split(' ', 1)`: at most one split, so at most two parts. -/
def pySplitOnce (l : List Char) : List (List Char) :=
  match splitFirst ' ' l with
  | none => [l]
  | some (a, b) => [a, b]

/-- Embedding of `part[:1].upper() + part[1:3]`: the first character capitalized followed
by the next up to two characters of the part. -/
def codePiece (part : List Char) : List Char :=
  (part.take 1).map Char.toUpper ++ (part.drop 1).take 2

/-- The value the `Region.code` property yields: the stored `_code` when one
was supplied, otherwise the concatenation of `codePiece` over
`name.replace('_', ' ').split(' ', 1)`. -/
def Region.codeValue (r : Region) : String :=
  match r._code with
  | some c => c
  | none =>
      String.mk ((pySplitOnce (underscoreToSpace r.name.data)).foldl
        (fun acc part => acc ++ codePiece part) [])

/-- One access to the `Region.code` property: returns the value and the
region with the lazily computed code cached in `_code`. -/
def Region.codeGet (r : Region) : String × Region :=
  (r.codeValue, { r with _code := some r.codeValue })

/-- Definition following the claim's words: for each whitespace-delimited
segment of the name, the first one to three characters of that segment with
the first character capitalized, concatenated in order over every segment. -/
def claimRegionCode (name : String) : String :=
  String.mk (((name.data.splitOn ' ').map codePiece).foldl
    (fun acc piece => acc ++ piece) [])

/-! ## Claims -/

/-- The `Simulation.__init__` keyword arguments supplying an empty timestep
sequence and nothing else. -/
def simKwargsEmptyTimesteps : SimKwargs :=
  ⟨none, none, none, none, none, some [], none, none, none⟩

/-- The fully defaulted `Simulation` storing an empty timestep sequence. -/
def simWithEmptyTimesteps : Simulation :=
  ⟨"glpk", false, false, [], false, [], false, false, []⟩

/-- C1, counterexample: constructing a `Simulation` with an explicitly empty
timestep sequence succeeds, and the stored sequence is empty — refuting
"construction never succeeds with an absent or empty timestep sequence" and
"for every successfully constructed Simulation the stored timestep sequence
is non-empty". -/
theorem c1_counterexample :
    Simulation.init simKwargsEmptyTimesteps = Except.ok simWithEmptyTimesteps ∧
    simWithEmptyTimesteps.timesteps = [] :=
  ⟨rfl, rfl⟩

/-- C1 (amended): constructing a `Simulation` fails with
`ValueError('No timesteps defined!')` exactly when no timestep sequence is
supplied (`kwargs.get('timesteps')` is `None`), and every successfully
constructed `Simulation` stores exactly the supplied timestep sequence,
which is allowed to be empty. -/
theorem c1_sim_init_amended (k : SimKwargs) :
    (k.timesteps = none →
      Simulation.init k =
        Except.error (PyErr.valueError "No timesteps defined!")) ∧
    (∀ ts : List Int, k.timesteps = some ts →
      ∃ s : Simulation, Simulation.init k = Except.ok s ∧ s.timesteps = ts) ∧
    (∀ s : Simulation, Simulation.init k = Except.ok s →
      k.timesteps = some s.timesteps) := by
  refine ⟨?_, ?_, ?_⟩
  · intro h
    simp [Simulation.init, h]
  · intro ts hts
    refine ⟨{ solver := k.solver.getD "glpk", debug := k.debug.getD false
              verbose := k.verbose.getD false
              objective_options := k.objective_options.getD []
              duals := k.duals.getD false, timesteps := ts
              relaxed := k.relaxed.getD false
              fast_build := k.fast_build.getD false
              solve_kwargs := k.solve_kwargs.getD [] }, ?_, rfl⟩
    simp [Simulation.init, hts]
  · intro s h
    cases hts : k.timesteps with
    | none => simp [Simulation.init, hts] at h
    | some ts =>
        simp [Simulation.init, hts] at h
        subst h
        rfl

/-- Witness for `c1_sim_init_amended` at concrete inputs: no timesteps
keyword fails, and a supplied non-empty `[5]` sequence constructs
successfully with `[5]` stored. -/
theorem c1_sim_init_amended_witness :
    Simulation.init ⟨none, none, none, none, none, none, none, none, none⟩ =
      Except.error (PyErr.valueError "No timesteps defined!") ∧
    (∃ s : Simulation,
      Simulation.init
          ⟨none, none, none, none, none, some [5], none, none, none⟩ =
        Except.ok s ∧ s.timesteps = [5]) :=
  ⟨(c1_sim_init_amended _).1 rfl, (c1_sim_init_amended _).2.1 [5] rfl⟩

/-- C2: `connect` with the supported `Simple` transport class creates exactly
two `Transport` entities, one per direction between the buses, each storing
the given `in_max`, `out_max` and `eta` wrapped as one-element lists, with
uid `('transport',)` followed by the output bus's uid components and then
the input bus's uid components, and raises nothing. -/
theorem c2_connect_simple (bus1 bus2 : Bus) (in_max out_max eta : Rat) :
    EnergySystem.connect bus1 bus2 in_max out_max eta TransportClass.Simple =
      ([{ uid := "transport" :: (bus1.uid ++ bus2.uid), outputs := [bus1],
          inputs := [bus2], out_max := [out_max], in_max := [in_max],
          eta := [eta] },
        { uid := "transport" :: (bus2.uid ++ bus1.uid), outputs := [bus2],
          inputs := [bus1], out_max := [out_max], in_max := [in_max],
          eta := [eta] }],
       none) :=
  rfl

/-- C3: `connect` with any transport class other than `Simple` raises a
`TypeError` and constructs no `Transport` entity at all (the created list is
empty), so nothing is registered by a failing call. -/
theorem c3_connect_unsupported (bus1 bus2 : Bus) (in_max out_max eta : Rat)
    (tc : TransportClass) (h : tc ≠ TransportClass.Simple) :
    EnergySystem.connect bus1 bus2 in_max out_max eta tc =
      ([], some (PyErr.typeError
        ("Sorry, `EnergySystem.connect` currently only works with" ++
         "a `transport_class` argument of Simple"))) := by
  simp [EnergySystem.connect, h]

/-- Witness for `c3_connect_unsupported` at a concrete unsupported class. -/
theorem c3_connect_unsupported_witness :
    EnergySystem.connect ⟨["bus_a"]⟩ ⟨["bus_b"]⟩ 10 8 (9/10)
        (TransportClass.Other "HeatTransport") =
      ([], some (PyErr.typeError
        ("Sorry, `EnergySystem.connect` currently only works with" ++
         "a `transport_class` argument of Simple"))) :=
  c3_connect_unsupported _ _ _ _ _ _ (by decide)

/-- C8: constructing an `EnergySystem` overwrites the process-wide
`Entity.registry` with that instance, last set wins: after any sequence of
constructions the registry is exactly the most recently constructed
container, whatever the registry held before. -/
theorem c8_registry_last_set_wins (ks : List ESKwargs) (k : ESKwargs)
    (reg0 : Option EnergySystem) :
    runInits (ks ++ [k]) reg0 = some (mkEnergySystem k) ∧
    (EnergySystem.init k reg0).2 = some (mkEnergySystem k) := by
  refine ⟨?_, rfl⟩
  simp [runInits, List.foldl_append, EnergySystem.init]

/-- C10: an `EnergySystem` constructed with no keyword arguments has
`regions`, `entities` and `simulation` each equal to the empty list (the
`simulation` slot is the literal default `[]`, neither `None` nor a
`Simulation`), and `results` and `time_idx` equal to `None`; the
`simulation` slot holds a `Simulation` config exactly when one was
supplied. -/
theorem c10_init_defaults :
    (EnergySystem.init ⟨none, none, none, none, none⟩ none).1 =
      { regions := [], entities := [], simulation := SimSlot.emptyList,
        results := none, time_idx := none } ∧
    (∀ (k : ESKwargs) (s : Simulation),
      (EnergySystem.init { k with simulation := some s } none).1.simulation =
        SimSlot.config s) ∧
    (∀ k : ESKwargs,
      (EnergySystem.init { k with simulation := none } none).1.simulation =
        SimSlot.emptyList) :=
  ⟨rfl, fun _ _ => rfl, fun _ => rfl⟩

/-- C4: `optimize` with no model argument builds a fresh compiler instance
bound to this container, invokes `solve` exactly once passing exactly the
container's simulation config fields (solver, debug, verbose, duals,
solve_kwargs), stores the `results()` mapping of that instance on the
container's `results` attribute, and returns the container itself (the
returned value is the post-call state). -/
theorem c4_optimize_default_om (b : OMBehavior) (es : EnergySystem)
    (s : Simulation) (hsim : es.simulation = SimSlot.config s)
    (hok : b.solveFn es
      { solver := s.solver, debug := s.debug, verbose := s.verbose,
        duals := s.duals, solve_kwargs := s.solve_kwargs } = Except.ok ()) :
    EnergySystem.optimize b none es =
      { state := { es with results := some (b.resultsFn es) }
        ret := Except.ok { es with results := some (b.resultsFn es) }
        solveCalls :=
          [⟨s.solver, s.debug, s.verbose, s.duals, s.solve_kwargs⟩] } := by
  simp [EnergySystem.optimize, hsim, hok]

/-- A simulation config over three timesteps used by concrete witnesses. -/
def simThreeSteps : Simulation :=
  ⟨"glpk", false, false, [], false, [0, 1, 2], false, false, []⟩

/-- A container holding `simThreeSteps`, used by concrete witnesses. -/
def esWithSim : EnergySystem :=
  { regions := [], entities := [], simulation := SimSlot.config simThreeSteps,
    results := none, time_idx := none }

/-- A compiler behavior whose solve always succeeds. -/
def omBehaviorOk : OMBehavior :=
  { solveFn := fun _ _ => Except.ok ()
    resultsFn := fun _ => [("objective", 42)] }

/-- Witness for `c4_optimize_default_om` at concrete inputs. -/
theorem c4_optimize_default_om_witness :
    EnergySystem.optimize omBehaviorOk none esWithSim =
      { state := { esWithSim with results := some [("objective", 42)] }
        ret := Except.ok
          { esWithSim with results := some [("objective", 42)] }
        solveCalls := [⟨"glpk", false, false, false, []⟩] } :=
  c4_optimize_default_om omBehaviorOk esWithSim simThreeSteps rfl rfl

/-- C5: when the solve step inside `optimize` raises, the exception
propagates to the caller unchanged, the container's `results` attribute is
left untouched, and in fact the whole container state is unchanged — no
partial results are attached on failure. Holds whether the compiler
instance was supplied or freshly built. -/
theorem c5_optimize_solve_error_atomic (b : OMBehavior) (om? : Option OM)
    (es : EnergySystem) (s : Simulation) (e : PyErr)
    (hsim : es.simulation = SimSlot.config s)
    (herr : (om?.getD { behavior := b, energysystem := es }).behavior.solveFn
        (om?.getD { behavior := b, energysystem := es }).energysystem
        { solver := s.solver, debug := s.debug, verbose := s.verbose,
          duals := s.duals, solve_kwargs := s.solve_kwargs } =
      Except.error e) :
    (EnergySystem.optimize b om? es).ret = Except.error e ∧
    (EnergySystem.optimize b om? es).state.results = es.results ∧
    (EnergySystem.optimize b om? es).state = es := by
  simp [EnergySystem.optimize, hsim, herr]

/-- A compiler behavior whose solve always fails. -/
def omBehaviorFail : OMBehavior :=
  { solveFn := fun _ _ => Except.error (PyErr.valueError "solver infeasible")
    resultsFn := fun _ => [("objective", 0)] }

/-- Witness for `c5_optimize_solve_error_atomic` at concrete inputs. -/
theorem c5_optimize_solve_error_atomic_witness :
    (EnergySystem.optimize omBehaviorFail none esWithSim).ret =
      Except.error (PyErr.valueError "solver infeasible") ∧
    (EnergySystem.optimize omBehaviorFail none esWithSim).state.results =
      esWithSim.results ∧
    (EnergySystem.optimize omBehaviorFail none esWithSim).state = esWithSim :=
  c5_optimize_solve_error_atomic omBehaviorFail none esWithSim simThreeSteps
    (PyErr.valueError "solver infeasible") rfl rfl

/-- A successful `ensureDir` changes neither the home directory nor the
stored files. -/
theorem FS.ensureDir_ok {fs fs' : FS} {p : Path}
    (h : fs.ensureDir p = Except.ok fs') :
    fs'.home = fs.home ∧ fs'.files = fs.files := by
  unfold FS.ensureDir FS.mkdir at h
  split at h
  · injection h with h'
    subst h'
    exact ⟨rfl, rfl⟩
  · split at h
    · simp at h
    · split at h
      · injection h with h'
        subst h'
        exact ⟨rfl, rfl⟩
      · simp at h

/-- A successful `writeFile` prepends the new blob and keeps the home
directory. -/
theorem FS.writeFile_ok {fs fs' : FS} {p : Path} {blob : EnergySystem}
    (h : fs.writeFile p blob = Except.ok fs') :
    fs'.home = fs.home ∧ fs'.files = (p, blob) :: fs.files := by
  unfold FS.writeFile at h
  split at h
  · simp at h
  · split at h
    · injection h with h'
      subst h'
      exact ⟨rfl, rfl⟩
    · simp at h

/-- C6: a successful `dump` followed by `restore` with the same (possibly
defaulted) directory path and filename yields back exactly the dumped
attribute state, whatever the attribute state of the restoring container
was before — the previous attributes are fully replaced, never merged. -/
theorem c6_dump_restore_roundtrip (es es0 : EnergySystem) (fs : FS)
    (dpath : Option Path) (filename : Option String) (fs2 : FS) (p : Path)
    (h : EnergySystem.dump es fs dpath filename = Except.ok (fs2, p)) :
    EnergySystem.restore es0 fs2 dpath filename = Except.ok (es, p) := by
  cases dpath with
  | some d =>
      simp only [EnergySystem.dump] at h
      rcases hw : fs.writeFile (d ++ [filename.getD "es_dump.oemof"]) es
        with e | fs3
      · rw [hw] at h
        simp at h
      · rw [hw] at h
        simp only [Except.ok.injEq, Prod.mk.injEq] at h
        obtain ⟨rfl, rfl⟩ := h
        obtain ⟨hh, hf⟩ := FS.writeFile_ok hw
        simp [EnergySystem.restore, FS.readFile, hf, List.lookup]
  | none =>
      simp only [EnergySystem.dump] at h
      rcases hb : fs.ensureDir (fs.home ++ [".oemof"]) with e | fs1
      · rw [hb] at h
        simp at h
      · rw [hb] at h
        dsimp only at h
        rcases hd : fs1.ensureDir (fs.home ++ [".oemof"] ++ ["dumps"])
          with e | fsd
        · rw [hd] at h
          simp at h
        · rw [hd] at h
          dsimp only at h
          rcases hw : fsd.writeFile
              (fs.home ++ [".oemof"] ++ ["dumps"] ++
                [filename.getD "es_dump.oemof"]) es with e | fs3
          · rw [hw] at h
            simp at h
          · rw [hw] at h
            simp only [Except.ok.injEq, Prod.mk.injEq] at h
            obtain ⟨rfl, rfl⟩ := h
            obtain ⟨hh1, hf1⟩ := FS.ensureDir_ok hb
            obtain ⟨hh2, hf2⟩ := FS.ensureDir_ok hd
            obtain ⟨hh3, hf3⟩ := FS.writeFile_ok hw
            simp [EnergySystem.restore, FS.readFile, hh3, hh2, hh1,
              hf3, hf2, hf1, List.lookup]

/-- A filesystem with an existing `/tmp` directory, for concrete witnesses. -/
def fsWithTmp : FS :=
  { home := ["root"], dirs := [["tmp"]], denied := [], files := [] }

/-- Witness for `c6_dump_restore_roundtrip`: a concrete dump to
`/tmp/snap.oemof` restored into a freshly defaulted container. -/
theorem c6_dump_restore_roundtrip_witness :
    EnergySystem.restore (mkEnergySystem ⟨none, none, none, none, none⟩)
        { home := ["root"], dirs := [["tmp"]], denied := []
          files := [(["tmp", "snap.oemof"], esWithSim)] }
        (some ["tmp"]) (some "snap.oemof") =
      Except.ok (esWithSim, ["tmp", "snap.oemof"]) :=
  c6_dump_restore_roundtrip esWithSim
    (mkEnergySystem ⟨none, none, none, none, none⟩) fsWithTmp
    (some ["tmp"]) (some "snap.oemof") _ _ rfl

/-- C7: with no directory path and no filename, `dump` writes the snapshot to
`<home>/.oemof/dumps/es_dump.oemof`, creating the `.oemof` and `dumps`
directories when they do not exist, and `restore` with no arguments reads
back from that same default path; a `PermissionError` raised while creating
the `.oemof` directory propagates out of `dump` unswallowed. -/
theorem c7_default_dump_path (es es0 : EnergySystem) (fs fsd : FS) :
    ((fs.home ∈ fs.dirs ∧
      fs.home ++ [".oemof"] ∉ fs.dirs ∧
      fs.home ++ [".oemof"] ∉ fs.denied ∧
      fs.home ++ [".oemof", "dumps"] ∉ fs.dirs ∧
      fs.home ++ [".oemof", "dumps"] ∉ fs.denied ∧
      fs.home ++ [".oemof", "dumps", "es_dump.oemof"] ∉ fs.denied) →
      (EnergySystem.dump es fs none none =
        Except.ok
          ({ home := fs.home
             dirs := (fs.home ++ [".oemof", "dumps"]) ::
               (fs.home ++ [".oemof"]) :: fs.dirs
             denied := fs.denied
             files := (fs.home ++ [".oemof", "dumps", "es_dump.oemof"], es) ::
               fs.files },
           fs.home ++ [".oemof", "dumps", "es_dump.oemof"]) ∧
      EnergySystem.restore es0
          { home := fs.home
            dirs := (fs.home ++ [".oemof", "dumps"]) ::
              (fs.home ++ [".oemof"]) :: fs.dirs
            denied := fs.denied
            files := (fs.home ++ [".oemof", "dumps", "es_dump.oemof"], es) ::
              fs.files } none none =
        Except.ok (es, fs.home ++ [".oemof", "dumps", "es_dump.oemof"]))) ∧
    ((fsd.home ++ [".oemof"] ∉ fsd.dirs ∧
      fsd.home ++ [".oemof"] ∈ fsd.denied) →
      EnergySystem.dump es fsd none none =
        Except.error PyErr.permissionError) := by
  constructor
  · rintro ⟨hhome, hbm, hbd, hdm, hdd, hfd⟩
    constructor
    · simp [EnergySystem.dump, FS.ensureDir, FS.mkdir, FS.writeFile,
        hhome, hbm, hbd, hdm, hdd, hfd]
    · simp [EnergySystem.restore, FS.readFile, List.lookup]
  · rintro ⟨hbm, hbd⟩
    simp [EnergySystem.dump, FS.ensureDir, FS.mkdir, hbm, hbd]

/-- A filesystem holding only the user's home directory. -/
def fsHomeOnly : FS :=
  { home := ["root"], dirs := [["root"]], denied := [], files := [] }

/-- A filesystem where creating `<home>/.oemof` is denied. -/
def fsHomeDenied : FS :=
  { home := ["root"], dirs := [["root"]], denied := [["root", ".oemof"]]
    files := [] }

/-- Witness for `c7_default_dump_path` at two concrete filesystems: a clean
one where the default dump and restore succeed, and one where directory
creation is permission-denied. -/
theorem c7_default_dump_path_witness :
    (EnergySystem.dump esWithSim fsHomeOnly none none =
      Except.ok
        ({ home := fsHomeOnly.home
           dirs := (fsHomeOnly.home ++ [".oemof", "dumps"]) ::
             (fsHomeOnly.home ++ [".oemof"]) :: fsHomeOnly.dirs
           denied := fsHomeOnly.denied
           files := (fsHomeOnly.home ++ [".oemof", "dumps", "es_dump.oemof"],
             esWithSim) :: fsHomeOnly.files },
         fsHomeOnly.home ++ [".oemof", "dumps", "es_dump.oemof"]) ∧
    EnergySystem.restore (mkEnergySystem ⟨none, none, none, none, none⟩)
        { home := fsHomeOnly.home
          dirs := (fsHomeOnly.home ++ [".oemof", "dumps"]) ::
            (fsHomeOnly.home ++ [".oemof"]) :: fsHomeOnly.dirs
          denied := fsHomeOnly.denied
          files := (fsHomeOnly.home ++ [".oemof", "dumps", "es_dump.oemof"],
            esWithSim) :: fsHomeOnly.files } none none =
      Except.ok
        (esWithSim,
         fsHomeOnly.home ++ [".oemof", "dumps", "es_dump.oemof"])) ∧
    EnergySystem.dump esWithSim fsHomeDenied none none =
      Except.error PyErr.permissionError :=
  ⟨(c7_default_dump_path esWithSim
      (mkEnergySystem ⟨none, none, none, none, none⟩) fsHomeOnly
      fsHomeDenied).1
    (by refine ⟨?_, ?_, ?_, ?_, ?_, ?_⟩ <;> decide),
   (c7_default_dump_path esWithSim
      (mkEnergySystem ⟨none, none, none, none, none⟩) fsHomeOnly
      fsHomeDenied).2 (by refine ⟨?_, ?_⟩ <;> decide)⟩

/-- The function `splitFirst` finds nothing when the separator does not occur. -/
theorem splitFirst_of_not_mem {sep : Char} :
    ∀ {l : List Char}, sep ∉ l → splitFirst sep l = none := by
  intro l
  induction l with
  | nil => intro _; rfl
  | cons c cs ih =>
      intro h
      have hc : ¬ (c = sep) := fun hh => h (by simp [hh])
      have hcs : sep ∉ cs := fun hm => h (List.mem_cons_of_mem _ hm)
      simp [splitFirst, hc, ih hcs]

/-- The function `splitFirst` splits exactly at the first separator occurrence. -/
theorem splitFirst_append {w rest : List Char} (hw : (' ' : Char) ∉ w) :
    splitFirst ' ' (w ++ ' ' :: rest) = some (w, rest) := by
  induction w with
  | nil => simp [splitFirst]
  | cons c cs ih =>
      have hc : ¬ (c = ' ') := fun hh => hw (by simp [hh])
      have hcs : (' ' : Char) ∉ cs :=
        fun hm => hw (List.mem_cons_of_mem _ hm)
      simp [splitFirst, hc, ih hcs]

/-- Replacing underscores is the identity on underscore-free text. -/
theorem underscoreToSpace_of_not_mem :
    ∀ {l : List Char}, ('_' : Char) ∉ l → underscoreToSpace l = l := by
  intro l
  induction l with
  | nil => intro _; rfl
  | cons c cs ih =>
      intro h
      have hc : ¬ (c = '_') := fun hh => h (by simp [hh])
      have hcs : ('_' : Char) ∉ cs :=
        fun hm => h (List.mem_cons_of_mem _ hm)
      simp [underscoreToSpace, hc]
      exact ih hcs

/-- C9, counterexample: for the three-segment name `"a b c"` the property
yields `"AB c"` (the split stops after the first space, and the remainder
`"b c"` is treated as a single part), while the claimed per-segment
derivation yields `"ABC"` — so the code attribute does not cover every
whitespace-delimited segment of the name. -/
theorem c9_counterexample :
    Region.codeValue
        { entities := [], name := "a b c", geom := none, _code := none } =
      "AB c" ∧
    claimRegionCode "a b c" = "ABC" ∧
    ("AB c" : String) ≠ "ABC" := by
  refine ⟨by decide, by decide, by decide⟩

/-- C9 (amended): for a Region constructed without an explicit code, the code
is derived from the name with underscores turned into spaces and split at
the first space only, giving at most two parts — the first segment and the
entire remainder; each part contributes its first character capitalized
followed by its next up to two characters, in order. Stated for any name
whose first segment `w` contains no separator, followed by a space or an
underscore and an arbitrary remainder `rest` (which may itself contain
further spaces and underscores): the code is the piece of `w` followed by
the piece of the underscore-replaced remainder. The value is computed on
first access and cached: the access stores the value in `_code`, and a
later access returns the cached value with no further change. -/
theorem c9_region_code_amended (ents : List Entity) (geom : Option String)
    (w rest : String) (sep : Char) (r : Region)
    (hw : (' ' : Char) ∉ w.data) (hwu : ('_' : Char) ∉ w.data)
    (hsep : sep = ' ' ∨ sep = '_') :
    Region.codeValue
        { entities := ents, name := String.mk (w.data ++ sep :: rest.data)
          geom := geom, _code := none } =
      String.mk (codePiece w.data ++
        codePiece (underscoreToSpace rest.data)) ∧
    Region.codeValue
        { entities := ents, name := w, geom := geom, _code := none } =
      String.mk (codePiece w.data) ∧
    (Region.codeGet r).2._code = some (Region.codeGet r).1 ∧
    Region.codeGet ((Region.codeGet r).2) =
      ((Region.codeGet r).1, (Region.codeGet r).2) := by
  have hsep' : (if sep = '_' then ' ' else sep) = ' ' := by
    rcases hsep with rfl | rfl
    · simp
    · simp
  have hmap : underscoreToSpace (w.data ++ sep :: rest.data) =
      w.data ++ ' ' :: underscoreToSpace rest.data := by
    unfold underscoreToSpace
    rw [List.map_append, List.map_cons, hsep']
    congr 1
    exact underscoreToSpace_of_not_mem hwu
  refine ⟨?_, ?_, rfl, rfl⟩
  · simp [Region.codeValue, pySplitOnce, hmap, splitFirst_append hw]
  · simp [Region.codeValue, pySplitOnce, underscoreToSpace_of_not_mem hwu,
      splitFirst_of_not_mem hw]

/-- Witness for `c9_region_code_amended` at the concrete underscore name
`"hello_world"` (first segment `"hello"`, separator `'_'`, remainder
`"world"`) and a concrete cached region. -/
theorem c9_region_code_amended_witness :
    Region.codeValue
        { entities := []
          name := String.mk ("hello".data ++ '_' :: "world".data)
          geom := none, _code := none } =
      String.mk (codePiece "hello".data ++
        codePiece (underscoreToSpace "world".data)) ∧
    Region.codeValue
        { entities := [], name := "hello", geom := none, _code := none } =
      String.mk (codePiece "hello".data) ∧
    (Region.codeGet
        { entities := [], name := "a_b", geom := none, _code := none }).2._code =
      some (Region.codeGet
        { entities := [], name := "a_b", geom := none, _code := none }).1 ∧
    Region.codeGet ((Region.codeGet
        { entities := [], name := "a_b", geom := none, _code := none }).2) =
      ((Region.codeGet
          { entities := [], name := "a_b", geom := none, _code := none }).1,
        (Region.codeGet
          { entities := [], name := "a_b", geom := none, _code := none }).2) :=
  c9_region_code_amended [] none "hello" "world" '_'
    { entities := [], name := "a_b", geom := none, _code := none }
    (by decide) (by decide) (Or.inr rfl)

end Oemof
